import Mathlib

/-!
Shallow embedding of `source/connection.c` from aws-c-http (connection
management core): stream-id allocation, version negotiation, refcounting,
HTTP/2-only operation guards, server accept/shutdown choreography, and the
client connect bootstrap state machine.  Stateful C code is embedded as
explicit state passing; callback invocations and channel-level side effects
are recorded as explicit event lists.
-/

namespace AwsHttp

/-- Abstract error-code values.  The C enum values are irrelevant to the
claims; all that matters is that `AWS_ERROR_SUCCESS` is zero and the others
are distinct and non-zero. -/
def AWS_ERROR_SUCCESS : Nat := 0

def AWS_ERROR_UNKNOWN : Nat := 1

def AWS_ERROR_INVALID_ARGUMENT : Nat := 2

def AWS_ERROR_INVALID_STATE : Nat := 3

def AWS_ERROR_HTTP_CONNECTION_CLOSED : Nat := 4

def AWS_ERROR_HTTP_REACTION_REQUIRED : Nat := 5

def AWS_ERROR_HTTP_STREAM_IDS_EXHAUSTED : Nat := 6

def AWS_ERROR_HTTP_UNSUPPORTED_PROTOCOL : Nat := 7

/-- `AWS_OP_SUCCESS` from aws-c-common. -/
def AWS_OP_SUCCESS : Int := 0

/-- `AWS_OP_ERR` from aws-c-common. -/
def AWS_OP_ERR : Int := -1

/-! ## Stream-id allocation (`aws_http_connection_get_next_stream_id`) -/

/-- `static const uint32_t MAX_STREAM_ID = UINT32_MAX >> 1;` -/
def MAX_STREAM_ID : Nat := 2 ^ 31 - 1

/-- The slice of `struct aws_http_connection` that
`aws_http_connection_get_next_stream_id` touches: the `next_stream_id`
counter (a `uint32_t`, so arithmetic is mod `2^32`). -/
structure StreamIdState where
  next_stream_id : Nat
deriving DecidableEq, Repr

/-- Embedding of `aws_http_connection_get_next_stream_id` (connection.c
lines 1039-1053).  Returns the issued id, the updated connection state, and
the raised error (`none` when no error is raised). -/
def aws_http_connection_get_next_stream_id (c : StreamIdState) :
    Nat × StreamIdState × Option Nat :=
  let next_id := c.next_stream_id
  if MAX_STREAM_ID < next_id then
    (0, c, some AWS_ERROR_HTTP_STREAM_IDS_EXHAUSTED)
  else
    (next_id, { c with next_stream_id := (next_id + 2) % 2 ^ 32 }, none)

/-- Ids returned by `n` consecutive calls, in call order. -/
def nextStreamIds : Nat → StreamIdState → List Nat
  | 0, _ => []
  | n + 1, c =>
    let r := aws_http_connection_get_next_stream_id c
    r.1 :: nextStreamIds n r.2.1

/-- Connection state after `n` consecutive calls. -/
def nextStreamIdState : Nat → StreamIdState → StreamIdState
  | 0, c => c
  | n + 1, c => nextStreamIdState n (aws_http_connection_get_next_stream_id c).2.1

/-- A freshly created client connection: `next_stream_id` is initialized
to 1 (the client constructor starts the odd id sequence at 1). -/
def freshClientConnection : StreamIdState := ⟨1⟩

theorem get_next_stream_id_valid (c : StreamIdState)
    (h : c.next_stream_id ≤ MAX_STREAM_ID) :
    aws_http_connection_get_next_stream_id c =
      (c.next_stream_id, ⟨(c.next_stream_id + 2) % 2 ^ 32⟩, none) := by
  simp [aws_http_connection_get_next_stream_id, Nat.not_lt.mpr h]

theorem get_next_stream_id_exhausted (c : StreamIdState)
    (h : MAX_STREAM_ID < c.next_stream_id) :
    aws_http_connection_get_next_stream_id c =
      (0, c, some AWS_ERROR_HTTP_STREAM_IDS_EXHAUSTED) := by
  simp [aws_http_connection_get_next_stream_id, h]

theorem nextStreamIds_odd_run (n j : Nat) (h : j + n ≤ 2 ^ 30) :
    nextStreamIds n ⟨2 * j + 1⟩ = (List.range n).map (fun i => 2 * (j + i) + 1) ∧
      nextStreamIdState n ⟨2 * j + 1⟩ = ⟨2 * (j + n) + 1⟩ := by
  induction n generalizing j with
  | zero => simp [nextStreamIds, nextStreamIdState]
  | succ n ih =>
    have hle : 2 * j + 1 ≤ MAX_STREAM_ID := by
      have : j < 2 ^ 30 := by omega
      simp only [MAX_STREAM_ID]
      omega
    have hmod : (2 * j + 1 + 2) % 2 ^ 32 = 2 * (j + 1) + 1 := by
      have : 2 * j + 1 + 2 < 2 ^ 32 := by
        have : j < 2 ^ 30 := by omega
        omega
      omega
    have hstep := get_next_stream_id_valid ⟨2 * j + 1⟩ hle
    have ihj := ih (j + 1) (by omega)
    constructor
    · show nextStreamIds (n + 1) ⟨2 * j + 1⟩ = _
      rw [nextStreamIds, hstep]
      simp only [hmod]
      rw [ihj.1, List.range_succ_eq_map]
      simp [List.map_map, Function.comp]
      intro a _
      omega
    · show nextStreamIdState (n + 1) ⟨2 * j + 1⟩ = _
      rw [nextStreamIdState, hstep]
      simp only [hmod]
      rw [ihj.2]
      congr 1
      omega

/-- **C3.** For a freshly created client connection (next stream id 1),
`N` consecutive `get_next_stream_id` calls return exactly the ids
`1, 3, 5, …, 2N-1` — strictly increasing odd values spaced by 2, never
repeating — for every `N` up to `(2^31 - 1)/2`; and after the last valid
id (`2^31 - 1`, issued on call number `2^30`) the next call returns the
sentinel `0` and raises `AWS_ERROR_HTTP_STREAM_IDS_EXHAUSTED`. -/
theorem stream_id_monotonic_then_exhausted (N : Nat)
    (hN : N ≤ (2 ^ 31 - 1) / 2) :
    nextStreamIds N freshClientConnection =
        (List.range N).map (fun i => 2 * i + 1) ∧
      (nextStreamIds N freshClientConnection).Pairwise (· < ·) ∧
      (nextStreamIds N freshClientConnection).Nodup ∧
      (∀ x ∈ nextStreamIds N freshClientConnection, x % 2 = 1) ∧
      (nextStreamIds (2 ^ 30) freshClientConnection).getLast? =
        some (2 ^ 31 - 1) ∧
      aws_http_connection_get_next_stream_id
          (nextStreamIdState (2 ^ 30) freshClientConnection) =
        (0, nextStreamIdState (2 ^ 30) freshClientConnection,
          some AWS_ERROR_HTTP_STREAM_IDS_EXHAUSTED) := by
  have hN' : N ≤ 2 ^ 30 := by omega
  have hrun := nextStreamIds_odd_run N 0 (by omega)
  have hrun_full := nextStreamIds_odd_run (2 ^ 30) 0 (by omega)
  have hfresh : freshClientConnection = (⟨2 * 0 + 1⟩ : StreamIdState) := rfl
  have hids : nextStreamIds N freshClientConnection =
      (List.range N).map (fun i => 2 * i + 1) := by
    rw [hfresh, hrun.1]
    simp
  refine ⟨hids, ?_, ?_, ?_, ?_, ?_⟩
  · rw [hids, List.pairwise_map]
    exact (List.pairwise_lt_range N).imp (fun h => by omega)
  · rw [hids]
    exact List.Nodup.map (fun a b hab => by omega) (List.nodup_range N)
  · intro x hx
    rw [hids] at hx
    obtain ⟨i, _, rfl⟩ := List.mem_map.mp hx
    omega
  · rw [hfresh, hrun_full.1]
    have h30 : 2 ^ 30 = (2 ^ 30 - 1) + 1 := by norm_num
    rw [h30, List.range_succ]
    simp
  · rw [hfresh, hrun_full.2]
    apply get_next_stream_id_exhausted
    simp [MAX_STREAM_ID]

theorem stream_id_monotonic_then_exhausted_witness :
    (3 : Nat) ≤ (2 ^ 31 - 1) / 2 ∧
      nextStreamIds 3 freshClientConnection = [1, 3, 5] :=
  ⟨by norm_num,
   by rw [(stream_id_monotonic_then_exhausted 3 (by norm_num)).1]; rfl⟩

/-- **C10.** When exhaustion is detected (`next_stream_id > 2^31 - 1`) the
call returns 0, raises the exhaustion error and leaves the counter
unchanged, so every subsequent call returns the same result: the exhausted
state is stable and the failing call has no side effect. -/
theorem stream_id_exhaustion_stable (c : StreamIdState)
    (h : MAX_STREAM_ID < c.next_stream_id) :
    aws_http_connection_get_next_stream_id c =
        (0, c, some AWS_ERROR_HTTP_STREAM_IDS_EXHAUSTED) ∧
      (∀ n, nextStreamIdState n c = c) ∧
      (∀ n, nextStreamIds n c = List.replicate n 0) := by
  have hstep := get_next_stream_id_exhausted c h
  refine ⟨hstep, ?_, ?_⟩
  · intro n
    induction n with
    | zero => rfl
    | succ n ih =>
      rw [nextStreamIdState, hstep]
      exact ih
  · intro n
    induction n with
    | zero => rfl
    | succ n ih =>
      rw [nextStreamIds, hstep]
      simp [ih, List.replicate_succ]

theorem stream_id_exhaustion_stable_witness :
    MAX_STREAM_ID < (2 ^ 31 + 1 : Nat) ∧
      nextStreamIds 2 ⟨2 ^ 31 + 1⟩ = [0, 0] := by
  refine ⟨by norm_num [MAX_STREAM_ID], ?_⟩
  rw [(stream_id_exhaustion_stable ⟨2 ^ 31 + 1⟩
    (by norm_num [MAX_STREAM_ID])).2.2 2]
  rfl

/-! ## Version negotiation (`s_connection_new`, lines 108-164) -/

inductive HttpVersion where
  | http1_1
  | http2
deriving DecidableEq, Repr

/-- Embedding of the HTTP-version decision inside `s_connection_new`
(connection.c lines 108-136).  `tls_protocol` is the byte buffer returned
by `aws_tls_handler_protocol` for the slot immediately left of the
connection slot; `none` models the absence of that TLS slot or handler
(the `!connection_slot->adj_left || !connection_slot->adj_left->handler`
error branch).  An empty string models `protocol.len == 0`. -/
def s_connection_new_version (is_using_tls : Bool)
    (tls_protocol : Option String) : Except Nat HttpVersion :=
  if is_using_tls then
    match tls_protocol with
    | none => .error AWS_ERROR_INVALID_STATE
    | some protocol =>
      if protocol.length ≠ 0 then
        if protocol = "http/1.1" then .ok .http1_1
        else if protocol = "h2" then .ok .http2
        else .ok .http1_1
      else .ok .http1_1
  else .ok .http1_1

/-- **C2.** Version decision for a new connection: no TLS → HTTP/1.1;
ALPN exactly "http/1.1" → HTTP/1.1; exactly "h2" → HTTP/2; any other
non-empty string, or an empty (non-negotiated) string, → HTTP/1.1 with no
error raised. -/
theorem version_negotiation_correct (p : String) :
    s_connection_new_version false none = .ok .http1_1 ∧
      s_connection_new_version true (some "http/1.1") = .ok .http1_1 ∧
      s_connection_new_version true (some "h2") = .ok .http2 ∧
      (p ≠ "http/1.1" → p ≠ "h2" →
        s_connection_new_version true (some p) = .ok .http1_1) ∧
      s_connection_new_version true (some "") = .ok .http1_1 := by
  refine ⟨rfl, rfl, rfl, ?_, rfl⟩
  intro h1 h2
  by_cases hlen : p.length = 0
  · simp [s_connection_new_version, hlen]
  · simp [s_connection_new_version, hlen, h1, h2]

theorem version_negotiation_correct_witness :
    ("spdy/3" : String) ≠ "http/1.1" ∧ ("spdy/3" : String) ≠ "h2" ∧
      s_connection_new_version true (some "spdy/3") = .ok .http1_1 :=
  ⟨by decide, by decide,
   (version_negotiation_correct "spdy/3").2.2.2.1 (by decide) (by decide)⟩

/-! ## HTTP/2-only operation guards (`s_check_http2_connection` and the
`aws_http2_connection_*` wrappers, lines 236-340) -/

/-- The slice of `struct aws_http_connection` the HTTP/2 wrappers touch:
the stored version tag plus an abstract state acted on by the vtable
implementation. -/
structure Http2GuardConn where
  http_version : HttpVersion
  vtable_state : Nat
deriving DecidableEq, Repr

/-- Embedding of `s_check_http2_connection` (lines 236-246): `none` models
`AWS_OP_SUCCESS`, `some e` models `aws_raise_error(e)` followed by a
non-success return. -/
def s_check_http2_connection (c : Http2GuardConn) : Option Nat :=
  if c.http_version = .http2 then none
  else some AWS_ERROR_INVALID_STATE

/-- Result of one wrapper call: updated connection, returned op code, and
the raised error if any. -/
def Http2CallResult := Http2GuardConn × Int × Option Nat

/-- Embedding of `aws_http2_connection_change_settings` (lines 248-261),
parametrized by the vtable implementation `vt` (state transform plus
returned op code). -/
def aws_http2_connection_change_settings (vt : Nat → Nat × Int)
    (c : Http2GuardConn) : Http2CallResult :=
  match s_check_http2_connection c with
  | some e => (c, AWS_OP_ERR, some e)
  | none =>
    let r := vt c.vtable_state
    ({ c with vtable_state := r.1 }, r.2, none)

/-- Embedding of `aws_http2_connection_ping` (lines 263-274). -/
def aws_http2_connection_ping (vt : Nat → Nat × Int)
    (c : Http2GuardConn) : Http2CallResult :=
  match s_check_http2_connection c with
  | some e => (c, AWS_OP_ERR, some e)
  | none =>
    let r := vt c.vtable_state
    ({ c with vtable_state := r.1 }, r.2, none)

/-- Embedding of `aws_http2_connection_send_goaway` (lines 276-288). -/
def aws_http2_connection_send_goaway (vt : Nat → Nat × Int)
    (c : Http2GuardConn) : Http2CallResult :=
  match s_check_http2_connection c with
  | some e => (c, AWS_OP_ERR, some e)
  | none =>
    let r := vt c.vtable_state
    ({ c with vtable_state := r.1 }, r.2, none)

/-- Embedding of `aws_http2_connection_get_sent_goaway` (lines 290-302). -/
def aws_http2_connection_get_sent_goaway (vt : Nat → Nat × Int)
    (c : Http2GuardConn) : Http2CallResult :=
  match s_check_http2_connection c with
  | some e => (c, AWS_OP_ERR, some e)
  | none =>
    let r := vt c.vtable_state
    ({ c with vtable_state := r.1 }, r.2, none)

/-- Embedding of `aws_http2_connection_get_received_goaway`
(lines 304-316). -/
def aws_http2_connection_get_received_goaway (vt : Nat → Nat × Int)
    (c : Http2GuardConn) : Http2CallResult :=
  match s_check_http2_connection c with
  | some e => (c, AWS_OP_ERR, some e)
  | none =>
    let r := vt c.vtable_state
    ({ c with vtable_state := r.1 }, r.2, none)

/-- Embedding of `aws_http2_connection_get_local_settings`
(lines 318-328): the vtable call is `void`, the wrapper returns
`AWS_OP_SUCCESS` after it. -/
def aws_http2_connection_get_local_settings (vt : Nat → Nat)
    (c : Http2GuardConn) : Http2CallResult :=
  match s_check_http2_connection c with
  | some e => (c, AWS_OP_ERR, some e)
  | none => ({ c with vtable_state := vt c.vtable_state }, AWS_OP_SUCCESS, none)

/-- Embedding of `aws_http2_connection_get_remote_settings`
(lines 330-340). -/
def aws_http2_connection_get_remote_settings (vt : Nat → Nat)
    (c : Http2GuardConn) : Http2CallResult :=
  match s_check_http2_connection c with
  | some e => (c, AWS_OP_ERR, some e)
  | none => ({ c with vtable_state := vt c.vtable_state }, AWS_OP_SUCCESS, none)

/-- **C7.** Each HTTP/2-only wrapper, invoked on a connection whose
version is not HTTP/2, returns `AWS_OP_ERR` with the invalid-state error
raised, leaves the connection unchanged, and never invokes the vtable
implementation (the result is the same for every possible `vt`). -/
theorem http2_only_ops_guarded (c : Http2GuardConn)
    (vt : Nat → Nat × Int) (vtv : Nat → Nat)
    (h : c.http_version ≠ .http2) :
    aws_http2_connection_change_settings vt c =
        (c, AWS_OP_ERR, some AWS_ERROR_INVALID_STATE) ∧
      aws_http2_connection_ping vt c =
        (c, AWS_OP_ERR, some AWS_ERROR_INVALID_STATE) ∧
      aws_http2_connection_send_goaway vt c =
        (c, AWS_OP_ERR, some AWS_ERROR_INVALID_STATE) ∧
      aws_http2_connection_get_sent_goaway vt c =
        (c, AWS_OP_ERR, some AWS_ERROR_INVALID_STATE) ∧
      aws_http2_connection_get_received_goaway vt c =
        (c, AWS_OP_ERR, some AWS_ERROR_INVALID_STATE) ∧
      aws_http2_connection_get_local_settings vtv c =
        (c, AWS_OP_ERR, some AWS_ERROR_INVALID_STATE) ∧
      aws_http2_connection_get_remote_settings vtv c =
        (c, AWS_OP_ERR, some AWS_ERROR_INVALID_STATE) := by
  have hc : s_check_http2_connection c = some AWS_ERROR_INVALID_STATE := by
    simp [s_check_http2_connection, h]
  refine ⟨?_, ?_, ?_, ?_, ?_, ?_, ?_⟩ <;>
    simp [aws_http2_connection_change_settings, aws_http2_connection_ping,
      aws_http2_connection_send_goaway, aws_http2_connection_get_sent_goaway,
      aws_http2_connection_get_received_goaway,
      aws_http2_connection_get_local_settings,
      aws_http2_connection_get_remote_settings, hc]

theorem http2_only_ops_guarded_witness :
    (HttpVersion.http1_1 ≠ HttpVersion.http2) ∧
      aws_http2_connection_ping (fun s => (s + 1, AWS_OP_SUCCESS))
          ⟨.http1_1, 0⟩ =
        (⟨.http1_1, 0⟩, AWS_OP_ERR, some AWS_ERROR_INVALID_STATE) :=
  ⟨fun hv => HttpVersion.noConfusion hv,
   (http2_only_ops_guarded ⟨.http1_1, 0⟩ (fun s => (s + 1, AWS_OP_SUCCESS))
     id (by decide)).2.1⟩

/-! ## Server configuration (`aws_http_connection_configure_server`,
lines 1007-1034) -/

/-- `struct aws_http_connection.server_data`: the stored callbacks are
modelled as optional handler identities so that "stores the handler" is
observable. -/
structure ServerData where
  on_incoming_request : Option Nat
  on_shutdown : Option Nat
deriving DecidableEq, Repr

/-- The slice of `struct aws_http_connection` touched by
`aws_http_connection_configure_server`: `server_data` is `none` for a
client connection (the union member is null). -/
structure ServerConfigConn where
  user_data : Nat
  server_data : Option ServerData
deriving DecidableEq, Repr

/-- `struct aws_http_server_connection_options`. -/
structure ServerConnectionOptions where
  on_incoming_request : Option Nat
  on_shutdown : Option Nat
  connection_user_data : Nat
deriving DecidableEq, Repr

/-- Embedding of `aws_http_connection_configure_server` (lines 1007-1034).
Returns the (possibly updated) connection, the op result, and the raised
error if any.  `none` for `connection`/`options` models null pointers. -/
def aws_http_connection_configure_server (connection : Option ServerConfigConn)
    (options : Option ServerConnectionOptions) :
    Option ServerConfigConn × Int × Option Nat :=
  match connection, options with
  | none, _ => (connection, AWS_OP_ERR, some AWS_ERROR_INVALID_ARGUMENT)
  | _, none => (connection, AWS_OP_ERR, some AWS_ERROR_INVALID_ARGUMENT)
  | some conn, some opts =>
    if opts.on_incoming_request = none then
      (connection, AWS_OP_ERR, some AWS_ERROR_INVALID_ARGUMENT)
    else
      match conn.server_data with
      | none => (connection, AWS_OP_ERR, some AWS_ERROR_INVALID_STATE)
      | some sd =>
        if sd.on_incoming_request ≠ none then
          (connection, AWS_OP_ERR, some AWS_ERROR_INVALID_STATE)
        else
          (some { user_data := opts.connection_user_data,
                  server_data := some { on_incoming_request := opts.on_incoming_request,
                                        on_shutdown := opts.on_shutdown } },
           AWS_OP_SUCCESS, none)

/-- **C8.** `configure_server` sets the incoming-request handler at most
once: the first call with valid options on an unconfigured server
connection succeeds and stores the handler, shutdown callback and user
data; a call on a client connection, or a second call on an
already-configured connection, fails with the invalid-state error and
leaves the stored callbacks unchanged. -/
theorem configure_server_at_most_once (conn : ServerConfigConn)
    (opts : ServerConnectionOptions) (handler : Nat)
    (hreq : opts.on_incoming_request = some handler) :
    (conn.server_data = some ⟨none, none⟩ →
      aws_http_connection_configure_server (some conn) (some opts) =
        (some { user_data := opts.connection_user_data,
                server_data := some ⟨opts.on_incoming_request, opts.on_shutdown⟩ },
         AWS_OP_SUCCESS, none)) ∧
    (conn.server_data = none →
      aws_http_connection_configure_server (some conn) (some opts) =
        (some conn, AWS_OP_ERR, some AWS_ERROR_INVALID_STATE)) ∧
    (∀ sd : ServerData, conn.server_data = some sd → sd.on_incoming_request ≠ none →
      aws_http_connection_configure_server (some conn) (some opts) =
        (some conn, AWS_OP_ERR, some AWS_ERROR_INVALID_STATE)) := by
  refine ⟨?_, ?_, ?_⟩
  · intro hsd
    simp [aws_http_connection_configure_server, hreq, hsd]
  · intro hsd
    simp [aws_http_connection_configure_server, hreq, hsd]
  · intro sd hsd hconf
    simp [aws_http_connection_configure_server, hreq, hsd, hconf]

theorem configure_server_at_most_once_witness :
    ((⟨7, some ⟨none, none⟩⟩ : ServerConfigConn).server_data = some ⟨none, none⟩) ∧
      aws_http_connection_configure_server
          (some ⟨7, some ⟨none, none⟩⟩) (some ⟨some 42, some 43, 9⟩) =
        (some ⟨9, some ⟨some 42, some 43⟩⟩, AWS_OP_SUCCESS, none) :=
  ⟨rfl,
   (configure_server_at_most_once ⟨7, some ⟨none, none⟩⟩
     ⟨some 42, some 43, 9⟩ 42 rfl).1 rfl⟩

/-! ## Refcounting (`aws_http_connection_acquire` /
`aws_http_connection_release`, lines 355-382) -/

/-- Channel-level side effects performed by `aws_http_connection_release`.
`destroy_connection` is never emitted by `release` itself: destruction
follows from the channel's teardown. -/
inductive RefAction where
  | channel_shutdown (error_code : Nat)
  | channel_release_hold
  | destroy_connection
deriving DecidableEq, Repr

/-- The slice of `struct aws_http_connection` touched by acquire/release:
the atomic refcount. -/
structure RefcountConn where
  refcount : Nat
deriving DecidableEq, Repr

/-- Embedding of `aws_http_connection_acquire` (lines 355-358). -/
def aws_http_connection_acquire (c : RefcountConn) : RefcountConn :=
  { c with refcount := c.refcount + 1 }

/-- Embedding of `aws_http_connection_release` (lines 360-382): fetch-sub
the refcount; exactly when the previous value was 1, request channel
shutdown (with `AWS_ERROR_SUCCESS` as reason) and then release the
channel's hold, in that order. -/
def aws_http_connection_release (c : RefcountConn) :
    RefcountConn × List RefAction :=
  let prev_refcount := c.refcount
  if prev_refcount = 1 then
    ({ c with refcount := prev_refcount - 1 },
     [.channel_shutdown AWS_ERROR_SUCCESS, .channel_release_hold])
  else
    ({ c with refcount := prev_refcount - 1 }, [])

/-- **C4.** `acquire` increments and `release` decrements the refcount;
exactly the release that takes the refcount to zero performs, in order, a
channel-shutdown request followed by releasing the channel's hold; every
other release performs no action; and `release` never destroys the
connection directly. -/
theorem refcount_release_actions (c : RefcountConn) :
    (aws_http_connection_acquire c).refcount = c.refcount + 1 ∧
      (aws_http_connection_release c).1.refcount = c.refcount - 1 ∧
      ((aws_http_connection_release c).2 =
          [.channel_shutdown AWS_ERROR_SUCCESS, .channel_release_hold] ↔
        c.refcount = 1) ∧
      (c.refcount ≠ 1 → (aws_http_connection_release c).2 = []) ∧
      RefAction.destroy_connection ∉ (aws_http_connection_release c).2 := by
  refine ⟨rfl, ?_, ?_, ?_, ?_⟩
  · simp [aws_http_connection_release]
    split <;> rfl
  · by_cases h : c.refcount = 1 <;> simp [aws_http_connection_release, h]
  · intro h
    simp [aws_http_connection_release, h]
  · by_cases h : c.refcount = 1 <;> simp [aws_http_connection_release, h]

theorem refcount_release_actions_witness :
    (aws_http_connection_release ⟨1⟩).2 =
      [.channel_shutdown AWS_ERROR_SUCCESS, .channel_release_hold] :=
  ((refcount_release_actions ⟨1⟩).2.2.1).mpr rfl

/-! ## Server registry (`struct aws_http_server`, lines 40-57, and its
release / accept / listener-destroy choreography) -/

/-- The slice of `struct aws_http_server` the claims touch: the
lock-guarded `is_shutting_down` flag, the keys of
`channel_to_connection_map` (channels as abstract identities, in
insertion order), and whether `on_destroy_complete` was supplied.  The
lock serializes access, so the embedding is sequential. -/
structure HttpServer where
  is_shutting_down : Bool
  channels : List Nat
  has_on_destroy_complete : Bool
deriving DecidableEq, Repr

/-- Side effects performed on the server paths. -/
inductive ServerEvent where
  | channel_shutdown (channel error_code : Nat)
  | destroy_listener
  | on_destroy_complete
deriving DecidableEq, Repr

/-- Embedding of `aws_http_server_release` (lines 658-701): under the
lock, if already shutting down do nothing; otherwise set the flag,
request shutdown of every channel currently in the map (without removing
entries), then destroy the socket listener. -/
def aws_http_server_release (s : HttpServer) : HttpServer × List ServerEvent :=
  if s.is_shutting_down then (s, [])
  else
    ({ s with is_shutting_down := true },
     s.channels.map
         (fun ch => .channel_shutdown ch AWS_ERROR_HTTP_CONNECTION_CLOSED)
       ++ [.destroy_listener])

/-- `n` consecutive calls to `aws_http_server_release` on the same
server, with their side effects concatenated in call order. -/
def serverReleaseN : Nat → HttpServer → HttpServer × List ServerEvent
  | 0, s => (s, [])
  | n + 1, s =>
    let r := aws_http_server_release s
    let r2 := serverReleaseN n r.1
    (r2.1, r.2 ++ r2.2)

/-- Embedding of `s_server_bootstrap_on_server_listener_destroy`
(lines 555-560) together with `s_http_server_clean_up` (lines 507-518):
once the listener confirms destruction, the user's `on_destroy_complete`
is invoked if supplied. -/
def s_server_bootstrap_on_server_listener_destroy (s : HttpServer) :
    List ServerEvent :=
  if s.has_on_destroy_complete then [.on_destroy_complete] else []

/-- The full shutdown episode: the events of `n` release calls, followed
by one listener-destroy notification per `destroy_listener` request they
issued. -/
def serverReleaseEpisode (n : Nat) (s : HttpServer) : List ServerEvent :=
  let r := serverReleaseN n s
  r.2 ++ r.2.flatMap (fun e =>
    if e = .destroy_listener
    then s_server_bootstrap_on_server_listener_destroy r.1
    else [])

theorem serverReleaseN_noop (n : Nat) (s : HttpServer)
    (h : s.is_shutting_down = true) : serverReleaseN n s = (s, []) := by
  induction n with
  | zero => rfl
  | succ n ih =>
    simp [serverReleaseN, aws_http_server_release, h, ih]

/-- **C5.** For any number `n ≥ 1` of release calls on a running server:
only the first call broadcasts a shutdown to every channel in the map
(without removing entries) and requests listener destruction; every
subsequent call is a no-op; and across the whole episode
`on_destroy_complete` is invoked exactly once. -/
theorem server_release_idempotent_shutdown (n : Nat) (s : HttpServer)
    (hn : 1 ≤ n) (hrun : s.is_shutting_down = false)
    (hcb : s.has_on_destroy_complete = true) :
    (serverReleaseN n s).2 =
        s.channels.map
            (fun ch => .channel_shutdown ch AWS_ERROR_HTTP_CONNECTION_CLOSED)
          ++ [.destroy_listener] ∧
      (serverReleaseN n s).1.channels = s.channels ∧
      (serverReleaseN n s).2.countP
          (fun e => decide (e = ServerEvent.destroy_listener)) = 1 ∧
      (serverReleaseEpisode n s).countP
          (fun e => decide (e = ServerEvent.on_destroy_complete)) = 1 := by
  obtain ⟨m, rfl⟩ : ∃ m, n = m + 1 := ⟨n - 1, by omega⟩
  have hfirst : aws_http_server_release s =
      ({ s with is_shutting_down := true },
       s.channels.map
           (fun ch => .channel_shutdown ch AWS_ERROR_HTTP_CONNECTION_CLOSED)
         ++ [.destroy_listener]) := by
    simp [aws_http_server_release, hrun]
  have hrest := serverReleaseN_noop m { s with is_shutting_down := true } rfl
  have hN : serverReleaseN (m + 1) s =
      ({ s with is_shutting_down := true },
       s.channels.map
           (fun ch => .channel_shutdown ch AWS_ERROR_HTTP_CONNECTION_CLOSED)
         ++ [.destroy_listener]) := by
    simp [serverReleaseN, hfirst, hrest]
  have hcount : (s.channels.map
      (fun ch => ServerEvent.channel_shutdown ch
        AWS_ERROR_HTTP_CONNECTION_CLOSED)).countP
      (fun e => decide (e = ServerEvent.destroy_listener)) = 0 := by
    rw [List.countP_eq_zero]
    intro e he
    obtain ⟨ch, _, rfl⟩ := List.mem_map.mp he
    simp
  refine ⟨by rw [hN], by rw [hN], ?_, ?_⟩
  · rw [hN]
    simp [List.countP_append, hcount, List.countP_cons]
  · rw [serverReleaseEpisode, hN]
    simp only [List.countP_append, List.flatMap_append]
    have h1 : (s.channels.map
        (fun ch => ServerEvent.channel_shutdown ch
          AWS_ERROR_HTTP_CONNECTION_CLOSED)).countP
        (fun e => decide (e = ServerEvent.on_destroy_complete)) = 0 := by
      rw [List.countP_eq_zero]
      intro e he
      obtain ⟨ch, _, rfl⟩ := List.mem_map.mp he
      simp
    have h2 : ((s.channels.map
        (fun ch => ServerEvent.channel_shutdown ch
          AWS_ERROR_HTTP_CONNECTION_CLOSED)).flatMap (fun e =>
          if e = ServerEvent.destroy_listener
          then s_server_bootstrap_on_server_listener_destroy
            { s with is_shutting_down := true }
          else [])).countP
        (fun e => decide (e = ServerEvent.on_destroy_complete)) = 0 := by
      rw [List.countP_eq_zero]
      intro e he
      rw [List.mem_flatMap] at he
      obtain ⟨a, ha, hea⟩ := he
      obtain ⟨ch, _, rfl⟩ := List.mem_map.mp ha
      simp at hea
    simp [h1, h2, s_server_bootstrap_on_server_listener_destroy, hcb]

theorem server_release_idempotent_shutdown_witness :
    (1 : Nat) ≤ 2 ∧
      (serverReleaseN 2 ⟨false, [10, 11], true⟩).2 =
        [.channel_shutdown 10 AWS_ERROR_HTTP_CONNECTION_CLOSED,
         .channel_shutdown 11 AWS_ERROR_HTTP_CONNECTION_CLOSED,
         .destroy_listener] ∧
      (serverReleaseEpisode 2 ⟨false, [10, 11], true⟩).countP
        (fun e => decide (e = ServerEvent.on_destroy_complete)) = 1 := by
  have h := server_release_idempotent_shutdown 2 ⟨false, [10, 11], true⟩
    (by decide) rfl rfl
  exact ⟨by decide, by rw [h.1]; rfl, h.2.2.2⟩

/-! ## Server accept path (`s_server_bootstrap_on_accept_channel_setup`,
lines 387-504) -/

/-- Side effects on the accept path. -/
inductive AcceptEvent where
  | on_incoming_connection (success : Bool) (error_code : Nat)
  | channel_shutdown (error_code : Nat)
  | connection_release
deriving DecidableEq, Repr

/-- Embedding of the `error:` block of
`s_server_bootstrap_on_accept_channel_setup` (lines 486-504):
`error_code` is the local variable at the jump, `last_error` models
`aws_last_error()` there, `user_cb_invoked` whether the success callback
already ran, `hasChannel`/`connCreated` whether `channel`/`connection`
are non-null. -/
def s_accept_error_exit (error_code last_error : Nat)
    (user_cb_invoked hasChannel connCreated : Bool) : List AcceptEvent :=
  let ec := if error_code = 0 then last_error else error_code
  (if user_cb_invoked then [] else [.on_incoming_connection false ec])
    ++ (if hasChannel then [.channel_shutdown ec] else [])
    ++ (if connCreated then [.connection_release] else [])

/-- Embedding of `s_server_bootstrap_on_accept_channel_setup`
(lines 387-504).  `error_code` is the bootstrap-reported code; `connOk`
whether `s_connection_new` succeeds (`connErr` = `aws_last_error()` when
it fails); `putOk` whether `aws_hash_table_put` succeeds (`putErr`
likewise); `userConfigures` whether the user's incoming-connection
callback configures an incoming-request handler.  Returns the updated
server (map insertion) and the emitted events. -/
def s_server_bootstrap_on_accept_channel_setup (server : HttpServer)
    (error_code channel : Nat) (hasChannel connOk : Bool) (connErr : Nat)
    (putOk : Bool) (putErr : Nat) (userConfigures : Bool) :
    HttpServer × List AcceptEvent :=
  if error_code ≠ 0 then
    (server, s_accept_error_exit error_code 0 false hasChannel false)
  else if ¬connOk then
    (server, s_accept_error_exit 0 connErr false hasChannel false)
  else
    let ec := if server.is_shutting_down then AWS_ERROR_HTTP_CONNECTION_CLOSED
              else 0
    if ec ≠ 0 then
      (server, s_accept_error_exit ec 0 false hasChannel true)
    else if ¬putOk then
      (server, s_accept_error_exit 0 putErr false hasChannel true)
    else
      let server' := { server with channels := server.channels ++ [channel] }
      if userConfigures then
        (server', [.on_incoming_connection true AWS_ERROR_SUCCESS])
      else
        (server',
         [.on_incoming_connection true AWS_ERROR_SUCCESS]
           ++ s_accept_error_exit 0 AWS_ERROR_HTTP_REACTION_REQUIRED true
                hasChannel true)

/-- **C6.** A channel accepted while the server is already shutting down
at map-insertion time is not inserted into the map; the user's
incoming-connection callback is invoked with the non-zero
connection-closed code, the channel is shut down, and the connection
reference is released.  The same failure delivery and channel shutdown
happen for a connection-construction failure and for a map-registration
failure, both of which occur before the success callback. -/
theorem accept_rejected_when_shutting_down
    (sdown srun : HttpServer) (channel connErr putErr : Nat)
    (putOk userConfigures : Bool)
    (hdown : sdown.is_shutting_down = true)
    (hrun : srun.is_shutting_down = false)
    (_hce : connErr ≠ 0) (_hpe : putErr ≠ 0) :
    s_server_bootstrap_on_accept_channel_setup sdown 0 channel true true
        connErr putOk putErr userConfigures =
      (sdown,
       [.on_incoming_connection false AWS_ERROR_HTTP_CONNECTION_CLOSED,
        .channel_shutdown AWS_ERROR_HTTP_CONNECTION_CLOSED,
        .connection_release]) ∧
      AWS_ERROR_HTTP_CONNECTION_CLOSED ≠ 0 ∧
      s_server_bootstrap_on_accept_channel_setup srun 0 channel true false
          connErr putOk putErr userConfigures =
        (srun,
         [.on_incoming_connection false connErr,
          .channel_shutdown connErr]) ∧
      s_server_bootstrap_on_accept_channel_setup srun 0 channel true true
          connErr false putErr userConfigures =
        (srun,
         [.on_incoming_connection false putErr,
          .channel_shutdown putErr,
          .connection_release]) := by
  refine ⟨?_, by decide, ?_, ?_⟩
  · simp [s_server_bootstrap_on_accept_channel_setup, s_accept_error_exit,
      hdown, AWS_ERROR_HTTP_CONNECTION_CLOSED]
  · simp [s_server_bootstrap_on_accept_channel_setup, s_accept_error_exit,
      hrun]
  · simp [s_server_bootstrap_on_accept_channel_setup, s_accept_error_exit,
      hrun]

theorem accept_rejected_when_shutting_down_witness :
    ((⟨true, [], true⟩ : HttpServer).is_shutting_down = true) ∧
      s_server_bootstrap_on_accept_channel_setup ⟨true, [], true⟩ 0 5 true
          true 9 true 9 true =
        (⟨true, [], true⟩,
         [.on_incoming_connection false AWS_ERROR_HTTP_CONNECTION_CLOSED,
          .channel_shutdown AWS_ERROR_HTTP_CONNECTION_CLOSED,
          .connection_release]) :=
  ⟨rfl,
   (accept_rejected_when_shutting_down ⟨true, [], true⟩ ⟨false, [], true⟩
     5 9 9 true true rfl rfl (by decide) (by decide)).1⟩

/-- `true` exactly for `on_incoming_connection` events. -/
def isIncomingConnectionCb : AcceptEvent → Bool
  | .on_incoming_connection _ _ => true
  | _ => false

theorem countP_accept_error_exit (error_code last_error : Nat)
    (user_cb_invoked hasChannel connCreated : Bool) :
    (s_accept_error_exit error_code last_error user_cb_invoked hasChannel
        connCreated).countP isIncomingConnectionCb =
      if user_cb_invoked then 0 else 1 := by
  unfold s_accept_error_exit
  cases user_cb_invoked <;> cases hasChannel <;> cases connCreated <;>
    simp [isIncomingConnectionCb]

/-- **C9.** The user's `on_incoming_connection` callback is invoked at
most once per accepted channel, for every combination of outcomes; in
particular, when it was already invoked with success and the user failed
to configure an incoming-request handler, the error path shuts the
channel down with the reaction-required error and releases the
connection, but does not invoke the callback a second time. -/
theorem accept_user_callback_at_most_once (server : HttpServer)
    (error_code channel : Nat) (hasChannel connOk : Bool)
    (connErr : Nat) (putOk : Bool) (putErr : Nat) (userConfigures : Bool)
    (hrun : server.is_shutting_down = false) :
    ((s_server_bootstrap_on_accept_channel_setup server error_code channel
        hasChannel connOk connErr putOk putErr userConfigures).2.countP
      isIncomingConnectionCb) ≤ 1 ∧
      s_server_bootstrap_on_accept_channel_setup server 0 channel true true
          connErr true putErr false =
        ({ server with channels := server.channels ++ [channel] },
         [.on_incoming_connection true AWS_ERROR_SUCCESS,
          .channel_shutdown AWS_ERROR_HTTP_REACTION_REQUIRED,
          .connection_release]) := by
  constructor
  · unfold s_server_bootstrap_on_accept_channel_setup
    split_ifs <;>
      simp [List.countP_append, List.countP_cons, isIncomingConnectionCb,
        countP_accept_error_exit, AWS_ERROR_HTTP_CONNECTION_CLOSED]
  · simp [s_server_bootstrap_on_accept_channel_setup, s_accept_error_exit,
      hrun]

theorem accept_user_callback_at_most_once_witness :
    ((⟨false, [], true⟩ : HttpServer).is_shutting_down = false) ∧
      s_server_bootstrap_on_accept_channel_setup ⟨false, [], true⟩ 0 5 true
          true 9 true 9 false =
        (⟨false, [5], true⟩,
         [.on_incoming_connection true AWS_ERROR_SUCCESS,
          .channel_shutdown AWS_ERROR_HTTP_REACTION_REQUIRED,
          .connection_release]) :=
  ⟨rfl,
   (accept_user_callback_at_most_once ⟨false, [], true⟩ 0 5 true true 9
     true 9 false rfl).2⟩

/-! ## Client connect bootstrap (`struct aws_http_client_bootstrap`,
`s_client_bootstrap_on_channel_setup` lines 705-790 and
`s_client_bootstrap_on_channel_shutdown` lines 793-834) -/

/-- The slice of `struct aws_http_client_bootstrap` the claims touch:
whether `on_setup` is still stored (it is required non-null at connect
time and nulled out after a successful setup call) and whether the user
supplied `on_shutdown`. -/
structure HttpClientBootstrap where
  has_on_setup : Bool
  has_on_shutdown : Bool
deriving DecidableEq, Repr

/-- Callback invocations and channel side effects on the client path. -/
inductive ClientEvent where
  | on_setup (success : Bool) (error_code : Nat)
  | on_shutdown (error_code : Nat)
  | channel_shutdown (error_code : Nat)
  | release_bootstrap
deriving DecidableEq, Repr

/-- Embedding of `s_client_bootstrap_on_channel_setup` (lines 705-790).
`error_code` is the transport-reported code (non-zero iff the channel is
null, per the asserted contract); `connOk` covers the
connection-construction steps after transport success (both
`s_connection_new` and the monitoring-handler creation jump to the same
`error:` block), with `connErr` = `aws_last_error()` on failure.  On the
error path the channel is shut down and `on_setup` stays stored, to be
fired later from the shutdown path. -/
def s_client_bootstrap_on_channel_setup (b : HttpClientBootstrap)
    (error_code : Nat) (connOk : Bool) (connErr : Nat) :
    HttpClientBootstrap × List ClientEvent :=
  if error_code ≠ 0 then
    (b, [.on_setup false error_code, .release_bootstrap])
  else if ¬connOk then
    (b, [.channel_shutdown connErr])
  else
    ({ b with has_on_setup := false },
     [.on_setup true AWS_ERROR_SUCCESS])

/-- Embedding of `s_client_bootstrap_on_channel_shutdown`
(lines 793-834): if `on_setup` was never fired, fire it now with a
non-zero code (substituting `AWS_ERROR_UNKNOWN` when the shutdown reason
is zero); otherwise fire `on_shutdown` if supplied; then release the
bootstrap unconditionally. -/
def s_client_bootstrap_on_channel_shutdown (b : HttpClientBootstrap)
    (error_code : Nat) : List ClientEvent :=
  (if b.has_on_setup then
    [.on_setup false (if error_code = 0 then AWS_ERROR_UNKNOWN else error_code)]
  else if b.has_on_shutdown then
    [.on_shutdown error_code]
  else [])
    ++ [.release_bootstrap]

/-- The possible fates of one client connect attempt: the transport
fails before a channel exists; the channel comes up but connection
construction fails (the channel is then shut down with
`shutdown_error`); or setup fully succeeds and the channel later shuts
down with `shutdown_error`. -/
inductive ConnectOutcome where
  | transport_failure (error_code : Nat)
  | construction_failure (conn_error shutdown_error : Nat)
  | success (shutdown_error : Nat)
deriving DecidableEq, Repr

/-- The complete event trace of one connect attempt: the setup callback
runs first; whenever a channel was created, the shutdown callback runs
afterwards (there is no channel, hence no shutdown notification, when
the transport itself failed). -/
def clientConnectEpisode (b : HttpClientBootstrap) :
    ConnectOutcome → List ClientEvent
  | .transport_failure ec =>
    (s_client_bootstrap_on_channel_setup b ec false 0).2
  | .construction_failure ce se =>
    let r := s_client_bootstrap_on_channel_setup b 0 false ce
    r.2 ++ s_client_bootstrap_on_channel_shutdown r.1 se
  | .success se =>
    let r := s_client_bootstrap_on_channel_setup b 0 true 0
    r.2 ++ s_client_bootstrap_on_channel_shutdown r.1 se

/-- `true` exactly for `on_setup` events. -/
def isSetupEvent : ClientEvent → Bool
  | .on_setup _ _ => true
  | _ => false

/-- **C1.** For every client connect attempt — transport failure,
connection-construction failure after transport success, or success
followed by shutdown — `on_setup` fires exactly once; whenever it
reports failure its error code is non-zero (a generic code is
substituted if the channel-shutdown reason was zero); and `on_shutdown`
fires if and only if `on_setup` fired with success.  `on_setup` is
stored at connect time, and a transport failure carries a non-zero code
by the asserted bootstrap contract. -/
theorem client_setup_exactly_once (b : HttpClientBootstrap)
    (o : ConnectOutcome) (hsetup : b.has_on_setup = true)
    (hshut : b.has_on_shutdown = true)
    (htransport : ∀ ec, o = .transport_failure ec → ec ≠ 0) :
    (clientConnectEpisode b o).countP isSetupEvent = 1 ∧
      (∀ ec, ClientEvent.on_setup false ec ∈ clientConnectEpisode b o →
        ec ≠ 0) ∧
      ((∃ ec, ClientEvent.on_shutdown ec ∈ clientConnectEpisode b o) ↔
        ClientEvent.on_setup true AWS_ERROR_SUCCESS ∈
          clientConnectEpisode b o) := by
  cases o with
  | transport_failure ec =>
    have hec : ec ≠ 0 := htransport ec rfl
    refine ⟨?_, ?_, ?_⟩
    · simp [clientConnectEpisode, s_client_bootstrap_on_channel_setup, hec,
        isSetupEvent]
    · intro ec' hmem
      simp [clientConnectEpisode, s_client_bootstrap_on_channel_setup,
        hec] at hmem
      omega
    · simp [clientConnectEpisode, s_client_bootstrap_on_channel_setup, hec]
  | construction_failure ce se =>
    refine ⟨?_, ?_, ?_⟩
    · simp [clientConnectEpisode, s_client_bootstrap_on_channel_setup,
        s_client_bootstrap_on_channel_shutdown, hsetup, isSetupEvent]
    · intro ec' hmem
      simp [clientConnectEpisode, s_client_bootstrap_on_channel_setup,
        s_client_bootstrap_on_channel_shutdown, hsetup] at hmem
      by_cases hse : se = 0
      · simp [hse, AWS_ERROR_UNKNOWN] at hmem
        omega
      · simp [hse] at hmem
        omega
    · simp [clientConnectEpisode, s_client_bootstrap_on_channel_setup,
        s_client_bootstrap_on_channel_shutdown, hsetup]
  | success se =>
    refine ⟨?_, ?_, ?_⟩
    · simp [clientConnectEpisode, s_client_bootstrap_on_channel_setup,
        s_client_bootstrap_on_channel_shutdown, hshut, isSetupEvent]
    · intro ec' hmem
      simp [clientConnectEpisode, s_client_bootstrap_on_channel_setup,
        s_client_bootstrap_on_channel_shutdown, hshut] at hmem
    · simp [clientConnectEpisode, s_client_bootstrap_on_channel_setup,
        s_client_bootstrap_on_channel_shutdown, hshut, AWS_ERROR_SUCCESS]

theorem client_setup_exactly_once_witness :
    ((⟨true, true⟩ : HttpClientBootstrap).has_on_setup = true) ∧
      clientConnectEpisode ⟨true, true⟩ (.success 0) =
        [.on_setup true AWS_ERROR_SUCCESS, .on_shutdown 0,
         .release_bootstrap] ∧
      (clientConnectEpisode ⟨true, true⟩ (.success 0)).countP
        isSetupEvent = 1 :=
  ⟨rfl, rfl,
   (client_setup_exactly_once ⟨true, true⟩ (.success 0) rfl rfl
     (fun _ h => ConnectOutcome.noConfusion h)).1⟩

end AwsHttp
